import Mathlib

/-!
Shallow embedding of the subscription-reconciliation core of the
Payment-microservice repository (Go), together with theorems settling the
frozen claims about it.

Sources embedded:
- internal/services/payment_service.go : HandleWebhookEvent,
  findAndUpdateSubscriptionStatus, extractPlanIDFromWebhookData,
  getStringValue / getInt64Value / getTimeValueFromUnix,
  CreateSubscription, CreateSubscriptionWithRetry, isRetryableStripeError,
  GetSubscriptionByID, CancelSubscription;
- internal/http/handlers/webhook_handler.go : HandleStripeWebhook
  (status-code mapping and subscription-id extraction);
- the stripe client (CancelSubscription, resource_missing handling);
- the postgres subscription repository (lookup keyed by subscription_id,
  Update stamps updated_at).

Modelling conventions:
- `time.Time` values are unix seconds as `Int`; the Go zero time
  (`time.Time{}`, reported by `IsZero`) is `Option.none`, nullable
  `*time.Time` fields are `Option Int`.  `t1.Before t2` is `t1 < t2` and
  `t1.Equal t2` is `t1 = t2`.
- webhook payloads (`map[string]interface{}` after json.Unmarshal) are a
  JSON-like tree; numbers are modelled as integers (the Go helpers coerce
  float64/int64/json.Number to int64 for the unix-timestamp fields).
- the subscription store is a list of records; the repository keys both
  GetByID and GetByStripeSubscriptionID by the subscription_id column, and
  Update rewrites the matching row stamping updated_at.
- Go error values are a small inductive mirroring the chains built with
  errors.New, fmt.Errorf %w-wrapping and *stripe.Error; errors.As and
  errors.Is walk the Unwrap chain.
-/

namespace Payment

/-- JSON-like values for the loosely typed webhook payloads. -/
inductive Json where
  | str (s : String)
  | num (n : Int)
  | obj (fields : List (String × Json))
  | arr (elems : List Json)
  | boolean (b : Bool)
  | null

/-- A parsed webhook data object (`map[string]interface{}`). -/
abbrev JsonObj := List (String × Json)

/-- Map access `data[key]`. -/
def jsonLookup (data : JsonObj) (key : String) : Option Json :=
  (data.find? (fun p => p.fst == key)).map Prod.snd

/-- The type assertion `data[key].(string)`: `some s` iff the key holds a string. -/
def getStrField (data : JsonObj) (key : String) : Option String :=
  match jsonLookup data key with
  | some (.str s) => some s
  | _ => none

/-- `getStringValue` in payment_service.go: the string at the key, or "". -/
def getStringValue (data : JsonObj) (key : String) : String :=
  match getStrField data key with
  | some s => s
  | none => ""

/-- `getInt64Value` in payment_service.go: the number at the key coerced to
int64, or 0 when absent or not numeric. -/
def getInt64Value (data : JsonObj) (key : String) : Int :=
  match jsonLookup data key with
  | some (.num n) => n
  | _ => 0

/-- `getTimeValueFromUnix` in payment_service.go: `time.Unix(ts,0)` when the
extracted int64 is positive, the zero time (here `none`) otherwise. -/
def getTimeValueFromUnix (data : JsonObj) (key : String) : Option Int :=
  let ts := getInt64Value data key
  if ts > 0 then some ts else none

/-- Fallback branch of `extractPlanIDFromWebhookData`: the
`items.data[0].price.id` path (new Stripe shape). -/
def extractPlanIDFromItems (data : JsonObj) : String :=
  match jsonLookup data "items" with
  | some (.obj items) =>
    match jsonLookup items "data" with
    | some (.arr (firstItem :: _)) =>
      match firstItem with
      | .obj fi =>
        match jsonLookup fi "price" with
        | some (.obj price) =>
          match jsonLookup price "id" with
          | some (.str priceID) => if priceID ≠ "" then priceID else ""
          | _ => ""
        | _ => ""
      | _ => ""
    | _ => ""
  | _ => ""

/-- `extractPlanIDFromWebhookData` in payment_service.go: try `plan.id`
(old shape), then `items.data[0].price.id`; "" when neither is present. -/
def extractPlanIDFromWebhookData (data : JsonObj) : String :=
  match jsonLookup data "plan" with
  | some (.obj plan) =>
    match jsonLookup plan "id" with
    | some (.str planID) =>
      if planID ≠ "" then planID else extractPlanIDFromItems data
    | _ => extractPlanIDFromItems data
  | _ => extractPlanIDFromItems data

/-- `models.Subscription` (internal/models): times are unix seconds,
nullable `*time.Time` fields are options. -/
structure Subscription where
  subscriptionID : String
  userID : String
  planID : String
  status : String
  stripeCustomerID : String
  createdAt : Int
  updatedAt : Int
  expiresAt : Option Int
  canceledAt : Option Int
deriving Repr, DecidableEq

/-- Go error values: `*stripe.Error` (type, HTTP status, code), an
`errors.New` sentinel, and a `fmt.Errorf("...: %w", e)` wrapper.  An error
interpolated with `%v` contributes no node: only its text survives. -/
inductive GoError where
  | stripeError (ty : String) (httpStatus : Nat) (code : String)
  | sentinel (name : String)
  | wrapped (inner : GoError)
deriving Repr, DecidableEq

/-- `errors.As(err, &stripeErr)`: walk the Unwrap chain for a `*stripe.Error`. -/
def errorsAsStripeError : GoError → Option (String × Nat × String)
  | .stripeError ty st code => some (ty, st, code)
  | .sentinel _ => none
  | .wrapped inner => errorsAsStripeError inner

/-- `errors.Is(err, target)`: equality along the Unwrap chain. -/
def errorsIs : GoError → GoError → Bool
  | .stripeError ty st code, target => GoError.stripeError ty st code == target
  | .sentinel name, target => GoError.sentinel name == target
  | .wrapped inner, target => GoError.wrapped inner == target || errorsIs inner target

/-- `ErrSubscriptionNotFound = errors.New("subscription not found")`. -/
def errSubscriptionNotFound : GoError := .sentinel "subscription not found"

/-- `ErrStripeClient = errors.New("stripe client error")`. -/
def errStripeClient : GoError := .sentinel "stripe client error"

/-- `ErrPaymentFailed = errors.New("payment processing failed")`. -/
def errPaymentFailed : GoError := .sentinel "payment processing failed"

/-- `ErrInvalidInput = errors.New("invalid input data")`. -/
def errInvalidInput : GoError := .sentinel "invalid input data"

/-- `repo.GetByStripeSubscriptionID` / `repo.GetByID`: the postgres
repository keys both by the subscription_id column. -/
def getByStripeSubscriptionID (store : List Subscription) (id : String) :
    Option Subscription :=
  store.find? (fun s => s.subscriptionID == id)

/-- `repo.Update`: rewrite the row with matching subscription_id. -/
def storeUpdate (store : List Subscription) (sub : Subscription) :
    List Subscription :=
  store.map (fun s => if s.subscriptionID == sub.subscriptionID then sub else s)

/-- Status block of `findAndUpdateSubscriptionStatus` (lines 600-605):
`if sub.Status != newStatus || newStatus == "canceled"` set the status and
the needsUpdate flag.  The state is the record under merge paired with the
accumulated needsUpdate flag. -/
def statusStep (newStatus : String) (st : Subscription × Bool) :
    Subscription × Bool :=
  if st.1.status ≠ newStatus ∨ newStatus = "canceled" then
    ({ st.1 with status := newStatus }, true)
  else st

/-- Plan-id block (lines 607-614): `if newPlanID != "" && sub.PlanID !=
newPlanID` replace the plan id. -/
def planStep (data : JsonObj) (st : Subscription × Bool) :
    Subscription × Bool :=
  let newPlanID := extractPlanIDFromWebhookData data
  if newPlanID ≠ "" ∧ st.1.planID ≠ newPlanID then
    ({ st.1 with planID := newPlanID }, true)
  else st

/-- Period-end block (lines 616-625): `if !currentPeriodEnd.IsZero() &&
(sub.ExpiresAt == nil || sub.ExpiresAt.Before(currentPeriodEnd))` move the
expiry forward. -/
def periodEndStep (data : JsonObj) (st : Subscription × Bool) :
    Subscription × Bool :=
  match getTimeValueFromUnix data "current_period_end" with
  | some t =>
    match st.1.expiresAt with
    | none => ({ st.1 with expiresAt := some t }, true)
    | some e => if e < t then ({ st.1 with expiresAt := some t }, true) else st
  | none => st

/-- Cancellation block (lines 627-634): `if !canceledAt.IsZero() &&
(sub.CanceledAt == nil || !sub.CanceledAt.Equal(canceledAt))` overwrite the
cancellation timestamp and force the status to "canceled". -/
def canceledAtStep (data : JsonObj) (st : Subscription × Bool) :
    Subscription × Bool :=
  match getTimeValueFromUnix data "canceled_at" with
  | some t =>
    if st.1.canceledAt = none ∨ st.1.canceledAt ≠ some t then
      ({ st.1 with canceledAt := some t, status := "canceled" }, true)
    else st
  | none => st

/-- Persistence stamp (lines 637-638 plus the repository Update): when the
needsUpdate flag is set the record is written with `updatedAt := now`. -/
def stampStep (now : Int) (st : Subscription × Bool) : Subscription × Bool :=
  if st.2 then ({ st.1 with updatedAt := now }, true) else st

/-- Steps 2-4 of `findAndUpdateSubscriptionStatus` (payment_service.go
lines 596-638): the in-memory merge of the incoming event fields into a
found subscription, block by block in source order, returning the merged
record and the needsUpdate flag. -/
def reconcileSubscription (sub0 : Subscription) (newStatus : String)
    (data : JsonObj) (now : Int) : Subscription × Bool :=
  stampStep now
    (canceledAtStep data
      (periodEndStep data
        (planStep data
          (statusStep newStatus (sub0, false)))))

/-- `findAndUpdateSubscriptionStatus` (payment_service.go lines 580-650):
look up by stripe subscription id, merge, persist when needed.  Returns the
resulting record and the updated store. -/
def findAndUpdateSubscriptionStatus (store : List Subscription)
    (stripeSubscriptionID newStatus : String) (data : JsonObj) (now : Int) :
    Except GoError (Subscription × List Subscription) :=
  if stripeSubscriptionID = "" then
    .error (.sentinel "stripeSubscriptionID is empty")
  else
    match getByStripeSubscriptionID store stripeSubscriptionID with
    | none => .error errSubscriptionNotFound
    | some sub =>
      let merged := reconcileSubscription sub newStatus data now
      if merged.2 then .ok (merged.1, storeUpdate store merged.1)
      else .ok (merged.1, store)

/-- `HandleWebhookEvent` (payment_service.go lines 409-573): dispatch on the
event type, reconcile, and acknowledge (return without error) when the
local subscription is missing.  Returns the updated store on success. -/
def handleWebhookEvent (store : List Subscription) (eventType : String)
    (data : JsonObj) (now : Int) : Except GoError (List Subscription) :=
  if eventType = "customer.subscription.created" then
    match findAndUpdateSubscriptionStatus store (getStringValue data "id")
        (getStringValue data "status") data now with
    | .error e =>
      if errorsIs e errSubscriptionNotFound then .ok store
      else .error (.wrapped e)
    | .ok r => .ok r.2
  else if eventType = "customer.subscription.updated" then
    if getStringValue data "id" = "" then .ok store
    else
      match findAndUpdateSubscriptionStatus store (getStringValue data "id")
          (getStringValue data "status") data now with
      | .error e =>
        if errorsIs e errSubscriptionNotFound then .ok store
        else .error (.wrapped e)
      | .ok r => .ok r.2
  else if eventType = "customer.subscription.deleted" then
    if getStringValue data "id" = "" then .ok store
    else
      match findAndUpdateSubscriptionStatus store (getStringValue data "id")
          "canceled" data now with
      | .error e =>
        if errorsIs e errSubscriptionNotFound then .ok store
        else .error (.wrapped e)
      | .ok r => .ok r.2
  else if eventType = "customer.subscription.trial_will_end" then
    -- lookup only feeds a log line and a TODO notification; no mutation
    .ok store
  else if eventType = "invoice.payment_succeeded" then
    if getStringValue data "subscription" = "" then .ok store
    else
      match findAndUpdateSubscriptionStatus store
          (getStringValue data "subscription") "active" data now with
      | .error e =>
        if errorsIs e errSubscriptionNotFound then .ok store
        else .error (.wrapped e)
      | .ok r =>
        -- extra expires_at refresh from the invoice period_end
        match getTimeValueFromUnix data "period_end" with
        | none => .ok r.2
        | some t =>
          match r.1.expiresAt with
          | none =>
            .ok (storeUpdate r.2 { r.1 with expiresAt := some t, updatedAt := now })
          | some e =>
            if e < t then
              .ok (storeUpdate r.2 { r.1 with expiresAt := some t, updatedAt := now })
            else .ok r.2
  else if eventType = "invoice.payment_failed" then
    if getStringValue data "subscription" = "" then .ok store
    else
      match findAndUpdateSubscriptionStatus store
          (getStringValue data "subscription") "past_due" data now with
      | .error e =>
        if errorsIs e errSubscriptionNotFound then .ok store
        else .error (.wrapped e)
      | .ok r => .ok r.2
  else
    -- unhandled event types are acknowledged
    .ok store

/-- The subscription id `HandleWebhookEvent` extracts for each handled event
type: `data["id"]` for customer.subscription.* events, `data["subscription"]`
for invoice.* events. -/
def webhookEventSubID (eventType : String) (data : JsonObj) : String :=
  if eventType = "customer.subscription.created"
      ∨ eventType = "customer.subscription.updated"
      ∨ eventType = "customer.subscription.deleted"
      ∨ eventType = "customer.subscription.trial_will_end" then
    getStringValue data "id"
  else if eventType = "invoice.payment_succeeded"
      ∨ eventType = "invoice.payment_failed" then
    getStringValue data "subscription"
  else ""

/-- `CreateSubscriptionInput` in payment_service.go. -/
structure CreateSubscriptionInput where
  userID : String
  planID : String
  userEmail : String
  idempotencyKey : String
deriving Repr, DecidableEq

/-- One round of provider behaviour seen by `CreateSubscription`: the result
of `GetOrCreateCustomer` and the result of the provider-side
`CreateSubscription` call (stripe subscription id and client secret). -/
structure ProviderResponse where
  customerResult : Except GoError String
  subscriptionResult : Except GoError (String × String)

/-- `CreateSubscription` (payment_service.go lines 90-172).  Both provider
failures are wrapped with `fmt.Errorf("%w: ...: %v", sentinel, err)`: the
`%w` verb wraps only the sentinel, the stripe error is formatted with `%v`
and therefore drops out of the Unwrap chain. -/
def createSubscription (input : CreateSubscriptionInput)
    (resp : ProviderResponse) (now : Int) :
    Except GoError (Subscription × String) :=
  if input.userID = "" ∨ input.planID = "" ∨ input.userEmail = "" then
    .error errInvalidInput
  else
    match resp.customerResult with
    | .error _ => .error (.wrapped errStripeClient)
    | .ok stripeCustomerID =>
      match resp.subscriptionResult with
      | .error e =>
        match errorsAsStripeError e with
        | some (ty, _, _) =>
          if ty = "card_error" ∨ ty = "invalid_request_error" then
            .error (.wrapped errPaymentFailed)
          else .error (.wrapped errStripeClient)
        | none => .error (.wrapped errStripeClient)
      | .ok r =>
        .ok ({ subscriptionID := r.1, userID := input.userID,
               planID := input.planID, status := "incomplete",
               stripeCustomerID := stripeCustomerID,
               createdAt := now, updatedAt := now,
               expiresAt := none, canceledAt := none }, r.2)

/-- `isRetryableStripeError` (payment_service.go lines 276-298): retry on
HTTP 429, on api_connection_error, and on provider 5xx other than 501. -/
def isRetryableStripeError (e : GoError) : Bool :=
  match errorsAsStripeError e with
  | some (ty, status, _) =>
    if status == 429 then true
    else if ty == "api_connection_error" then true
    else if 500 ≤ status ∧ status ≠ 501 then true
    else false
  | none => false

/-- `bo.MaxInterval = 15 * time.Second` in CreateSubscriptionWithRetry. -/
def backoffMaxIntervalSeconds : Nat := 15

/-- `bo.MaxElapsedTime = 1 * time.Minute` in CreateSubscriptionWithRetry. -/
def backoffMaxElapsedTimeSeconds : Nat := 60

/-- The `backoff.Retry` loop of `CreateSubscriptionWithRetry`
(payment_service.go lines 175-218): call the operation, retry while the
error is classified retryable and the elapsed-time budget (abstracted as
`fuel` remaining retries) allows, stop immediately on a permanent error.
Every attempt passes the identical `input` (same idempotency key); only the
provider behaviour may differ per attempt.  Returns the number of attempts
made and the final result. -/
def createSubscriptionWithRetryAux (input : CreateSubscriptionInput)
    (responses : Nat → ProviderResponse) (now : Int) :
    Nat → Nat → Nat × Except GoError (Subscription × String)
  | fuel, attempt =>
    match createSubscription input (responses attempt) now with
    | .ok out => (attempt + 1, .ok out)
    | .error e =>
      if isRetryableStripeError e then
        match fuel with
        | 0 => (attempt + 1, .error e)
        | Nat.succ fuel2 =>
          createSubscriptionWithRetryAux input responses now fuel2 (attempt + 1)
      else (attempt + 1, .error e)

/-- `CreateSubscriptionWithRetry`: run the retry loop from attempt 0. -/
def createSubscriptionWithRetry (input : CreateSubscriptionInput)
    (responses : Nat → ProviderResponse) (now : Int) (fuel : Nat) :
    Nat × Except GoError (Subscription × String) :=
  createSubscriptionWithRetryAux input responses now fuel 0

/-- `GetSubscriptionByID` (payment_service.go lines 303-325): repository
lookup, then ownership check; a foreign owner is reported with the same
`ErrSubscriptionNotFound` as a missing record. -/
def getSubscriptionByID (store : List Subscription)
    (userID subscriptionID : String) : Except GoError Subscription :=
  match getByStripeSubscriptionID store subscriptionID with
  | none => .error errSubscriptionNotFound
  | some sub =>
    if sub.userID ≠ userID then .error errSubscriptionNotFound
    else .ok sub

/-- `CancelSubscription` (payment_service.go lines 341-406).  The second
component records whether the stripe client was called;
`stripeCancelResult` is the provider behaviour for that call. -/
def cancelSubscription (store : List Subscription)
    (userID subscriptionID : String)
    (stripeCancelResult : Except GoError Unit) :
    Except GoError Unit × Bool :=
  match getByStripeSubscriptionID store subscriptionID with
  | none => (.error errSubscriptionNotFound, false)
  | some sub =>
    if sub.userID ≠ userID then (.error errSubscriptionNotFound, false)
    else if sub.status = "canceled" then (.ok (), false)
    else
      match stripeCancelResult with
      | .error _ => (.error (.wrapped errStripeClient), true)
      | .ok _ => (.ok (), true)

/-- The stripe gateway `CancelSubscription` (stripe client):
`resource_missing` from the provider is treated as success; any other error
is wrapped and surfaced.  The Go code matches the direct type assertion
`err.(*stripe.Error)`, not errors.As. -/
def gatewayCancelSubscription (providerResult : Except GoError Unit) :
    Except GoError Unit :=
  match providerResult with
  | .ok _ => .ok ()
  | .error e =>
    match e with
    | .stripeError _ _ code =>
      if code = "resource_missing" then .ok () else .error (.wrapped e)
    | _ => .error (.wrapped e)

/-- Subscription-id extraction in `HandleStripeWebhook`
(webhook_handler.go lines 103-120): a nonempty string under "subscription"
wins; otherwise a string under "id" is used only when the "object"
discriminator is the string "subscription". -/
def extractSubscriptionIDFromOwnID (data : JsonObj) : String :=
  match getStrField data "id" with
  | some idVal =>
    match getStrField data "object" with
    | some objectType => if objectType = "subscription" then idVal else ""
    | none => ""
  | none => ""

/-- Full extraction order of `HandleStripeWebhook`: "subscription" field
first, then the object's own "id" gated by the "object" discriminator. -/
def extractSubscriptionID (data : JsonObj) : String :=
  match getStrField data "subscription" with
  | some subVal =>
    if subVal ≠ "" then subVal else extractSubscriptionIDFromOwnID data
  | none => extractSubscriptionIDFromOwnID data

/-- `HandleStripeWebhook` (webhook_handler.go lines 46-150) as a function of
the outcome of each sequential step: body read under the 64KB
MaxBytesReader cap, Stripe-Signature header, `webhook.ConstructEvent`
verification of the raw body against the configured secret, and the
unmarshalling of `event.Data.Raw` into a map (`none` when it fails).
Returns the HTTP status and the resulting store (unchanged unless the
service ran and succeeded). -/
def handleStripeWebhook (readOk : Bool) (sigHeader : String)
    (verifyOk : Bool) (rawData : Option JsonObj) (eventType : String)
    (store : List Subscription) (now : Int) : Nat × List Subscription :=
  if readOk = false then (400, store)
  else if sigHeader = "" then (400, store)
  else if verifyOk = false then (400, store)
  else
    match rawData with
    | none => (500, store)
    | some data =>
      match handleWebhookEvent store eventType data now with
      | .error _ => (500, store)
      | .ok newStore => (200, newStore)

/-! ## Step lemmas -/

/-- statusStep does not touch plan id, expiry, cancellation or updatedAt. -/
theorem statusStep_fields (newStatus : String) (st : Subscription × Bool) :
    (statusStep newStatus st).1.planID = st.1.planID ∧
    (statusStep newStatus st).1.expiresAt = st.1.expiresAt ∧
    (statusStep newStatus st).1.canceledAt = st.1.canceledAt ∧
    (statusStep newStatus st).1.updatedAt = st.1.updatedAt := by
  by_cases h : st.1.status ≠ newStatus ∨ newStatus = "canceled" <;>
    simp [statusStep, h]

/-- planStep does not touch status, expiry, cancellation or updatedAt. -/
theorem planStep_fields (data : JsonObj) (st : Subscription × Bool) :
    (planStep data st).1.status = st.1.status ∧
    (planStep data st).1.expiresAt = st.1.expiresAt ∧
    (planStep data st).1.canceledAt = st.1.canceledAt ∧
    (planStep data st).1.updatedAt = st.1.updatedAt := by
  by_cases h : extractPlanIDFromWebhookData data ≠ ""
      ∧ st.1.planID ≠ extractPlanIDFromWebhookData data <;>
    simp [planStep, h]

/-- periodEndStep does not touch status, plan id, cancellation or updatedAt. -/
theorem periodEndStep_fields (data : JsonObj) (st : Subscription × Bool) :
    (periodEndStep data st).1.status = st.1.status ∧
    (periodEndStep data st).1.planID = st.1.planID ∧
    (periodEndStep data st).1.canceledAt = st.1.canceledAt ∧
    (periodEndStep data st).1.updatedAt = st.1.updatedAt := by
  rcases h : getTimeValueFromUnix data "current_period_end" with _ | t
  · simp [periodEndStep, h]
  · rcases hE : st.1.expiresAt with _ | e
    · simp [periodEndStep, h, hE]
    · by_cases hlt : e < t <;> simp [periodEndStep, h, hE, hlt]

/-- canceledAtStep does not touch plan id, expiry or updatedAt. -/
theorem canceledAtStep_fields (data : JsonObj) (st : Subscription × Bool) :
    (canceledAtStep data st).1.planID = st.1.planID ∧
    (canceledAtStep data st).1.expiresAt = st.1.expiresAt ∧
    (canceledAtStep data st).1.updatedAt = st.1.updatedAt := by
  rcases h : getTimeValueFromUnix data "canceled_at" with _ | t
  · simp [canceledAtStep, h]
  · by_cases hc : st.1.canceledAt = none ∨ st.1.canceledAt ≠ some t <;>
      simp [canceledAtStep, h, hc]

/-- stampStep does not touch status, plan id, expiry or cancellation, and
keeps the flag. -/
theorem stampStep_fields (now : Int) (st : Subscription × Bool) :
    (stampStep now st).1.status = st.1.status ∧
    (stampStep now st).1.planID = st.1.planID ∧
    (stampStep now st).1.expiresAt = st.1.expiresAt ∧
    (stampStep now st).1.canceledAt = st.1.canceledAt ∧
    (stampStep now st).2 = st.2 := by
  by_cases h : st.2 = true <;> simp [stampStep, h]

/-- Each merge step only ever raises the needsUpdate flag. -/
theorem steps_flag_mono (newStatus : String) (data : JsonObj)
    (st : Subscription × Bool) (h : st.2 = true) :
    (statusStep newStatus st).2 = true ∧
    (planStep data st).2 = true ∧
    (periodEndStep data st).2 = true ∧
    (canceledAtStep data st).2 = true := by
  refine ⟨?_, ?_, ?_, ?_⟩
  · by_cases hs : st.1.status ≠ newStatus ∨ newStatus = "canceled" <;>
      simp [statusStep, hs, h]
  · by_cases hp : extractPlanIDFromWebhookData data ≠ ""
        ∧ st.1.planID ≠ extractPlanIDFromWebhookData data <;>
      simp [planStep, hp, h]
  · rcases hpe : getTimeValueFromUnix data "current_period_end" with _ | t
    · simp [periodEndStep, hpe, h]
    · rcases hE : st.1.expiresAt with _ | e
      · simp [periodEndStep, hpe, hE]
      · by_cases hlt : e < t <;> simp [periodEndStep, hpe, hE, hlt, h]
  · rcases hca : getTimeValueFromUnix data "canceled_at" with _ | t
    · simp [canceledAtStep, hca, h]
    · by_cases hc : st.1.canceledAt = none ∨ st.1.canceledAt ≠ some t <;>
        simp [canceledAtStep, hca, hc, h]

/-- Helper: when the desired status equals the stored one and is not
"canceled", and every incoming field is absent or equal to the stored
value, the merge leaves the record untouched and sets no update flag. -/
theorem reconcile_noop_of_no_diff (sub : Subscription) (data : JsonObj)
    (now : Int)
    (hnc : sub.status ≠ "canceled")
    (hplan : extractPlanIDFromWebhookData data = ""
      ∨ extractPlanIDFromWebhookData data = sub.planID)
    (hpe : getTimeValueFromUnix data "current_period_end" = none
      ∨ getTimeValueFromUnix data "current_period_end" = sub.expiresAt)
    (hca : getTimeValueFromUnix data "canceled_at" = none
      ∨ getTimeValueFromUnix data "canceled_at" = sub.canceledAt) :
    reconcileSubscription sub sub.status data now = (sub, false) := by
  unfold reconcileSubscription
  have h1 : statusStep sub.status (sub, false) = (sub, false) := by
    unfold statusStep; simp [hnc]
  rw [h1]
  have h2 : planStep data (sub, false) = (sub, false) := by
    unfold planStep
    rcases hplan with hplan | hplan <;> simp [hplan]
  rw [h2]
  have h3 : periodEndStep data (sub, false) = (sub, false) := by
    unfold periodEndStep
    rcases hpe with hpe | hpe
    · simp [hpe]
    · rw [hpe]
      rcases hE : sub.expiresAt with _ | e
      · simp
      · simp [hE]
  rw [h3]
  have h4 : canceledAtStep data (sub, false) = (sub, false) := by
    unfold canceledAtStep
    rcases hca with hca | hca
    · simp [hca]
    · rw [hca]
      rcases hC : sub.canceledAt with _ | c
      · simp
      · simp [hC]
  rw [h4]
  unfold stampStep; simp

/-- Claim C1 (amended): when the desired status equals the stored status,
the stored status is not "canceled", and no incoming field (plan id, period
end, cancellation timestamp) is present-and-different from the stored
value, no write is performed: the store and the record, including
updatedAt, are unchanged.  (The unamended claim fails when the desired
status is "canceled": a re-delivered cancellation always writes.) -/
theorem c1_idempotent_skip (store : List Subscription) (sid : String)
    (sub : Subscription) (data : JsonObj) (now : Int)
    (hsid : sid ≠ "")
    (hfound : getByStripeSubscriptionID store sid = some sub)
    (hnc : sub.status ≠ "canceled")
    (hplan : extractPlanIDFromWebhookData data = ""
      ∨ extractPlanIDFromWebhookData data = sub.planID)
    (hpe : getTimeValueFromUnix data "current_period_end" = none
      ∨ getTimeValueFromUnix data "current_period_end" = sub.expiresAt)
    (hca : getTimeValueFromUnix data "canceled_at" = none
      ∨ getTimeValueFromUnix data "canceled_at" = sub.canceledAt) :
    findAndUpdateSubscriptionStatus store sid sub.status data now
      = .ok (sub, store) := by
  unfold findAndUpdateSubscriptionStatus
  simp [hsid, hfound, reconcile_noop_of_no_diff sub data now hnc hplan hpe hca]

/-- Witness for c1_idempotent_skip at a concrete store and event. -/
theorem c1_idempotent_skip_witness :
    findAndUpdateSubscriptionStatus
      [⟨"sub_1", "user_1", "plan_1", "active", "cus_1", 0, 7, some 50, none⟩]
      "sub_1" "active"
      [("status", Json.str "active"), ("current_period_end", Json.num 50)] 100
      = .ok (⟨"sub_1", "user_1", "plan_1", "active", "cus_1", 0, 7, some 50, none⟩,
        [⟨"sub_1", "user_1", "plan_1", "active", "cus_1", 0, 7, some 50, none⟩]) :=
  c1_idempotent_skip
    [⟨"sub_1", "user_1", "plan_1", "active", "cus_1", 0, 7, some 50, none⟩]
    "sub_1" ⟨"sub_1", "user_1", "plan_1", "active", "cus_1", 0, 7, some 50, none⟩
    [("status", Json.str "active"), ("current_period_end", Json.num 50)] 100
    (by decide) (by rfl) (by decide) (Or.inl rfl) (Or.inr rfl) (Or.inl rfl)

/-- Counterexample to claim C1 as stated: re-applying a cancellation event
whose every field equals the stored value (same status "canceled", same
canceled_at) still sets needsUpdate and rewrites the record, changing
updatedAt. -/
theorem c1_counterexample :
    (reconcileSubscription
        ⟨"sub_1", "user_1", "plan_1", "canceled", "cus_1", 0, 7, none, some 50⟩
        "canceled" [("canceled_at", Json.num 50)] 100).2 = true ∧
    (reconcileSubscription
        ⟨"sub_1", "user_1", "plan_1", "canceled", "cus_1", 0, 7, none, some 50⟩
        "canceled" [("canceled_at", Json.num 50)] 100).1.updatedAt = 100 ∧
    (⟨"sub_1", "user_1", "plan_1", "canceled", "cus_1", 0, 7, none, some 50⟩
        : Subscription).updatedAt ≠ 100 := by
  refine ⟨by decide, by decide, by decide⟩

/-- Counterexample to claim C2 as stated: a stored canceledAt of 50 is
overwritten by an incoming different cancellation timestamp 70. -/
theorem c2_counterexample :
    (reconcileSubscription
        ⟨"sub_2", "user_2", "plan_2", "active", "cus_2", 0, 0, none, some 50⟩
        "canceled" [("canceled_at", Json.num 70)] 100).1.canceledAt = some 70 ∧
    (⟨"sub_2", "user_2", "plan_2", "active", "cus_2", 0, 0, none, some 50⟩
        : Subscription).canceledAt = some 50 := by
  refine ⟨by decide, by decide⟩

/-- Claim C2 (amended): an incoming non-null cancellation timestamp that
differs from the stored one always overwrites it (last write wins, not
first), and the status is forced to "canceled". -/
theorem c2_canceledAt_last_write_wins (sub : Subscription)
    (newStatus : String) (data : JsonObj) (now t : Int)
    (hca : getTimeValueFromUnix data "canceled_at" = some t)
    (hne : sub.canceledAt ≠ some t) :
    (reconcileSubscription sub newStatus data now).1.canceledAt = some t ∧
    (reconcileSubscription sub newStatus data now).1.status = "canceled" ∧
    (reconcileSubscription sub newStatus data now).2 = true := by
  unfold reconcileSubscription
  set st := periodEndStep data (planStep data (statusStep newStatus (sub, false)))
    with hst
  have hpre : st.1.canceledAt = sub.canceledAt := by
    rw [hst, (periodEndStep_fields data _).2.2.1,
      (planStep_fields data _).2.2.1, (statusStep_fields newStatus _).2.2.1]
  have hcond : st.1.canceledAt = none ∨ st.1.canceledAt ≠ some t := by
    rw [hpre]; exact Or.inr hne
  have h4 : canceledAtStep data st
      = ({ st.1 with canceledAt := some t, status := "canceled" }, true) := by
    unfold canceledAtStep; rw [hca]; simp [hcond]
  rw [h4]
  unfold stampStep; simp

/-- Witness for c2_canceledAt_last_write_wins. -/
theorem c2_canceledAt_last_write_wins_witness :
    (reconcileSubscription
        ⟨"sub_2", "user_2", "plan_2", "active", "cus_2", 0, 0, none, some 50⟩
        "canceled" [("canceled_at", Json.num 70)] 100).1.canceledAt = some 70 ∧
    (reconcileSubscription
        ⟨"sub_2", "user_2", "plan_2", "active", "cus_2", 0, 0, none, some 50⟩
        "canceled" [("canceled_at", Json.num 70)] 100).1.status = "canceled" ∧
    (reconcileSubscription
        ⟨"sub_2", "user_2", "plan_2", "active", "cus_2", 0, 0, none, some 50⟩
        "canceled" [("canceled_at", Json.num 70)] 100).2 = true :=
  c2_canceledAt_last_write_wins _ _ _ _ 70 (by decide) (by decide)

/-- Counterexample to claim C3 as stated: a late status=active webhook on a
canceled subscription mutates the record, setting status back to "active"
and stamping updatedAt. -/
theorem c3_counterexample :
    handleWebhookEvent
      [⟨"sub_3", "user_3", "plan_3", "canceled", "cus_3", 0, 10, none, some 50⟩]
      "customer.subscription.updated"
      [("id", Json.str "sub_3"), ("status", Json.str "active")] 100
      = .ok [⟨"sub_3", "user_3", "plan_3", "active", "cus_3", 0, 100, none, some 50⟩] ∧
    ("active" : String) ≠ "canceled" := by
  refine ⟨rfl, by decide⟩

/-- Claim C3 (amended): "canceled" is not terminal.  A subsequent non-cancel
command (one carrying no cancellation timestamp) on a canceled subscription
overwrites the status with the incoming status and triggers a write;
canceledAt itself is left unchanged. -/
theorem c3_canceled_not_terminal (sub : Subscription) (newStatus : String)
    (data : JsonObj) (now : Int)
    (hc : sub.status = "canceled") (hne : newStatus ≠ "canceled")
    (hca : getTimeValueFromUnix data "canceled_at" = none) :
    (reconcileSubscription sub newStatus data now).1.status = newStatus ∧
    (reconcileSubscription sub newStatus data now).1.canceledAt = sub.canceledAt ∧
    (reconcileSubscription sub newStatus data now).2 = true := by
  unfold reconcileSubscription
  have h1 : statusStep newStatus (sub, false)
      = ({ sub with status := newStatus }, true) := by
    unfold statusStep
    have hsne : sub.status ≠ newStatus := by rw [hc]; exact fun h => hne h.symm
    simp [hsne]
  rw [h1]
  set st := periodEndStep data (planStep data
    ({ sub with status := newStatus }, true)) with hst
  have h4 : canceledAtStep data st = st := by
    unfold canceledAtStep; rw [hca]
  rw [h4]
  have hflag : st.2 = true := by
    rw [hst]
    exact (steps_flag_mono newStatus data _
      ((steps_flag_mono newStatus data _ rfl).2.1)).2.2.1
  have hstat : st.1.status = newStatus := by
    rw [hst, (periodEndStep_fields data _).1, (planStep_fields data _).1]
  have hcanc : st.1.canceledAt = sub.canceledAt := by
    rw [hst, (periodEndStep_fields data _).2.2.1, (planStep_fields data _).2.2.1]
  unfold stampStep
  simp [hflag, hstat, hcanc]

/-- Witness for c3_canceled_not_terminal. -/
theorem c3_canceled_not_terminal_witness :
    (reconcileSubscription
        ⟨"sub_3", "user_3", "plan_3", "canceled", "cus_3", 0, 10, none, some 50⟩
        "active" [] 100).1.status = "active" ∧
    (reconcileSubscription
        ⟨"sub_3", "user_3", "plan_3", "canceled", "cus_3", 0, 10, none, some 50⟩
        "active" [] 100).1.canceledAt
      = (⟨"sub_3", "user_3", "plan_3", "canceled", "cus_3", 0, 10, none, some 50⟩
        : Subscription).canceledAt ∧
    (reconcileSubscription
        ⟨"sub_3", "user_3", "plan_3", "canceled", "cus_3", 0, 10, none, some 50⟩
        "active" [] 100).2 = true :=
  c3_canceled_not_terminal _ _ _ _ (by decide) (by decide) (by decide)

/-- Claim C4: the stored period end (expiresAt) is updated to an incoming
current_period_end only when the stored value is unset or strictly earlier;
an incoming value that is not later leaves the stored value unchanged. -/
theorem c4_period_end_monotonic (sub : Subscription) (newStatus : String)
    (data : JsonObj) (now t : Int)
    (hpe : getTimeValueFromUnix data "current_period_end" = some t) :
    (sub.expiresAt = none →
      (reconcileSubscription sub newStatus data now).1.expiresAt = some t) ∧
    (∀ e, sub.expiresAt = some e → e < t →
      (reconcileSubscription sub newStatus data now).1.expiresAt = some t) ∧
    (∀ e, sub.expiresAt = some e → ¬ e < t →
      (reconcileSubscription sub newStatus data now).1.expiresAt = some e) := by
  unfold reconcileSubscription
  set st := planStep data (statusStep newStatus (sub, false)) with hst
  have hpre : st.1.expiresAt = sub.expiresAt := by
    rw [hst, (planStep_fields data _).2.1, (statusStep_fields newStatus _).2.1]
  have hout : ∀ u : Subscription × Bool,
      (stampStep now (canceledAtStep data u)).1.expiresAt = u.1.expiresAt := by
    intro u
    rw [(stampStep_fields now _).2.2.1, (canceledAtStep_fields data _).2.1]
  refine ⟨fun hE => ?_, fun e hE hlt => ?_, fun e hE hge => ?_⟩
  · rw [hout]
    unfold periodEndStep
    rw [hpe, hpre, hE]
  · rw [hout]
    unfold periodEndStep
    rw [hpe, hpre, hE]
    simp [hlt]
  · rw [hout]
    unfold periodEndStep
    rw [hpe, hpre, hE]
    simp [hge, hpre, hE]

/-- Witness for c4_period_end_monotonic: an earlier incoming period end
(40 < stored 50) leaves the stored value unchanged. -/
theorem c4_period_end_monotonic_witness :
    (reconcileSubscription
        ⟨"sub_4", "user_4", "plan_4", "active", "cus_4", 0, 0, some 50, none⟩
        "active" [("current_period_end", Json.num 40)] 100).1.expiresAt
      = some 50 :=
  (c4_period_end_monotonic
    ⟨"sub_4", "user_4", "plan_4", "active", "cus_4", 0, 0, some 50, none⟩
    "active" [("current_period_end", Json.num 40)] 100 40 (by decide)).2.2 50
    (by decide) (by decide)

/-- Claim C5: a webhook event whose extracted subscription id matches no
local record is acknowledged: the handler returns success and the store is
neither extended nor mutated. -/
theorem c5_missing_subscription_acknowledged (store : List Subscription)
    (eventType : String) (data : JsonObj) (now : Int)
    (hid : webhookEventSubID eventType data ≠ "")
    (hmiss : getByStripeSubscriptionID store (webhookEventSubID eventType data)
      = none) :
    handleWebhookEvent store eventType data now = .ok store := by
  by_cases h1 : eventType = "customer.subscription.created"
  · subst h1
    simp [webhookEventSubID] at hid hmiss
    simp [handleWebhookEvent, findAndUpdateSubscriptionStatus, hid, hmiss,
      errorsIs, errSubscriptionNotFound]
  by_cases h2 : eventType = "customer.subscription.updated"
  · subst h2
    simp [webhookEventSubID] at hid hmiss
    simp [handleWebhookEvent, findAndUpdateSubscriptionStatus, hid, hmiss,
      errorsIs, errSubscriptionNotFound]
  by_cases h3 : eventType = "customer.subscription.deleted"
  · subst h3
    simp [webhookEventSubID] at hid hmiss
    simp [handleWebhookEvent, findAndUpdateSubscriptionStatus, hid, hmiss,
      errorsIs, errSubscriptionNotFound]
  by_cases h4 : eventType = "customer.subscription.trial_will_end"
  · subst h4
    simp [handleWebhookEvent]
  by_cases h5 : eventType = "invoice.payment_succeeded"
  · subst h5
    simp [webhookEventSubID] at hid hmiss
    simp [handleWebhookEvent, findAndUpdateSubscriptionStatus, hid, hmiss,
      errorsIs, errSubscriptionNotFound]
  by_cases h6 : eventType = "invoice.payment_failed"
  · subst h6
    simp [webhookEventSubID] at hid hmiss
    simp [handleWebhookEvent, findAndUpdateSubscriptionStatus, hid, hmiss,
      errorsIs, errSubscriptionNotFound]
  · simp [handleWebhookEvent, h1, h2, h3, h4, h5, h6]

/-- Witness for c5_missing_subscription_acknowledged. -/
theorem c5_missing_subscription_acknowledged_witness :
    handleWebhookEvent
      [⟨"sub_5", "user_5", "plan_5", "active", "cus_5", 0, 0, none, none⟩]
      "customer.subscription.updated"
      [("id", Json.str "sub_unknown"), ("status", Json.str "active")] 100
      = .ok [⟨"sub_5", "user_5", "plan_5", "active", "cus_5", 0, 0, none, none⟩] :=
  c5_missing_subscription_acknowledged
    [⟨"sub_5", "user_5", "plan_5", "active", "cus_5", 0, 0, none, none⟩]
    "customer.subscription.updated"
    [("id", Json.str "sub_unknown"), ("status", Json.str "active")] 100
    (by decide) (by rfl)

/-- Claim C6: the claimed retry behaviour fails on the code.  The provider
answers HTTP 429 (a retryable rate limit, as the classifier itself agrees)
on the first three attempts and succeeds on the fourth, yet the loop stops
after a single attempt with an error: `CreateSubscription` interpolates the
stripe error with %v, so the returned chain holds only the `ErrStripeClient`
sentinel and `isRetryableStripeError`'s errors.As finds no stripe error,
making every error permanent.  The backoff caps themselves match the claim
(15s interval, 60s total). -/
theorem c6_retry_never_retries :
    createSubscriptionWithRetry
        ⟨"user_6", "plan_6", "user6@example.com", "idem_6"⟩
        (fun n => if n < 3 then
            ⟨.ok "cus_6", .error (.stripeError "rate_limit_error" 429 "rate_limit")⟩
          else ⟨.ok "cus_6", .ok ("sub_6", "secret_6")⟩) 0 10
      = (1, .error (.wrapped errStripeClient)) ∧
    isRetryableStripeError (.stripeError "rate_limit_error" 429 "rate_limit")
      = true ∧
    isRetryableStripeError (.wrapped errStripeClient) = false ∧
    backoffMaxIntervalSeconds = 15 ∧
    backoffMaxElapsedTimeSeconds = 60 := by
  refine ⟨rfl, rfl, rfl, rfl, rfl⟩

/-- Claim C7: cancellation is idempotent at both layers.  A cancel request
whose local subscription is already canceled returns success without
calling the provider, and the gateway treats a provider-side
resource_missing failure as success. -/
theorem c7_cancel_idempotent (store : List Subscription)
    (userID subscriptionID : String) (sub : Subscription)
    (r : Except GoError Unit)
    (hfound : getByStripeSubscriptionID store subscriptionID = some sub)
    (howner : sub.userID = userID) (hc : sub.status = "canceled") :
    cancelSubscription store userID subscriptionID r = (.ok (), false) ∧
    ∀ ty st, gatewayCancelSubscription
        (.error (.stripeError ty st "resource_missing")) = .ok () := by
  constructor
  · simp [cancelSubscription, hfound, howner, hc]
  · intro ty st
    simp [gatewayCancelSubscription]

/-- Witness for c7_cancel_idempotent. -/
theorem c7_cancel_idempotent_witness :
    cancelSubscription
      [⟨"sub_7", "user_7", "plan_7", "canceled", "cus_7", 0, 0, none, some 5⟩]
      "user_7" "sub_7" (.ok ()) = (.ok (), false) ∧
    gatewayCancelSubscription
      (.error (.stripeError "invalid_request_error" 404 "resource_missing"))
      = .ok () :=
  ⟨(c7_cancel_idempotent
      [⟨"sub_7", "user_7", "plan_7", "canceled", "cus_7", 0, 0, none, some 5⟩]
      "user_7" "sub_7"
      ⟨"sub_7", "user_7", "plan_7", "canceled", "cus_7", 0, 0, none, some 5⟩
      (.ok ()) (by rfl) (by rfl) (by rfl)).1,
   (c7_cancel_idempotent
      [⟨"sub_7", "user_7", "plan_7", "canceled", "cus_7", 0, 0, none, some 5⟩]
      "user_7" "sub_7"
      ⟨"sub_7", "user_7", "plan_7", "canceled", "cus_7", 0, 0, none, some 5⟩
      (.ok ()) (by rfl) (by rfl) (by rfl)).2 "invalid_request_error" 404⟩

/-- Counterexample to claim C8 as stated: a request whose signature
verification succeeds but whose event data object cannot be unmarshalled is
answered with 500, not the claimed 400. -/
theorem c8_counterexample :
    handleStripeWebhook true "t=1,v1=abc" true none
        "customer.subscription.updated" [] 0 = (500, []) ∧
    (500 : Nat) ≠ 400 := by
  refine ⟨rfl, by decide⟩

/-- Claim C8 (amended): the webhook endpoint answers 400 when the capped
body read fails, the signature header is missing, or verification against
the secret fails (all before any payload parsing, with no reconciliation
side effect: the store is returned unchanged); 500 — not 400 — when the
verified event's data cannot be parsed; 500 for a reconciliation failure;
200 for any processed-or-ignored event. -/
theorem c8_status_mapping (sigHeader : String) (verifyOk : Bool)
    (rawData : Option JsonObj) (eventType : String)
    (store : List Subscription) (now : Int) :
    (handleStripeWebhook false sigHeader verifyOk rawData eventType store now
      = (400, store)) ∧
    (handleStripeWebhook true "" verifyOk rawData eventType store now
      = (400, store)) ∧
    (sigHeader ≠ "" →
      handleStripeWebhook true sigHeader false rawData eventType store now
        = (400, store)) ∧
    (sigHeader ≠ "" →
      handleStripeWebhook true sigHeader true none eventType store now
        = (500, store)) ∧
    (∀ data e, sigHeader ≠ "" →
      handleWebhookEvent store eventType data now = .error e →
      handleStripeWebhook true sigHeader true (some data) eventType store now
        = (500, store)) ∧
    (∀ data newStore, sigHeader ≠ "" →
      handleWebhookEvent store eventType data now = .ok newStore →
      handleStripeWebhook true sigHeader true (some data) eventType store now
        = (200, newStore)) := by
  refine ⟨by simp [handleStripeWebhook], by simp [handleStripeWebhook],
    fun hs => by simp [handleStripeWebhook, hs],
    fun hs => by simp [handleStripeWebhook, hs],
    fun data e hs hsvc => by simp [handleStripeWebhook, hs, hsvc],
    fun data newStore hs hsvc => by simp [handleStripeWebhook, hs, hsvc]⟩

/-- Witness for c8_status_mapping: concrete requests exercising the
verification-failure, parse-failure, service-error and success branches. -/
theorem c8_status_mapping_witness :
    handleStripeWebhook false "t=1,v1=abc" true none "evt" [] 0 = (400, []) ∧
    handleStripeWebhook true "t=1,v1=abc" false none "evt" [] 0 = (400, []) ∧
    handleStripeWebhook true "t=1,v1=abc" true none "evt" [] 0 = (500, []) ∧
    handleStripeWebhook true "t=1,v1=abc" true (some [])
      "customer.subscription.created" [] 0 = (500, []) ∧
    handleStripeWebhook true "t=1,v1=abc" true (some []) "evt" [] 0
      = (200, []) :=
  ⟨(c8_status_mapping "t=1,v1=abc" true none "evt" [] 0).1,
   (c8_status_mapping "t=1,v1=abc" true none "evt" [] 0).2.2.1 (by decide),
   (c8_status_mapping "t=1,v1=abc" true none "evt" [] 0).2.2.2.1 (by decide),
   (c8_status_mapping "t=1,v1=abc" true none "customer.subscription.created"
      [] 0).2.2.2.2.1 [] (.wrapped (.sentinel "stripeSubscriptionID is empty"))
      (by decide) (by rfl),
   (c8_status_mapping "t=1,v1=abc" true none "evt" [] 0).2.2.2.2.2 [] []
      (by decide) (by rfl)⟩

/-- Claim C9: subscription-id extraction priority in the webhook handler.
A nonempty "subscription" reference always wins (in particular for
invoice-style payloads); the object's own "id" is selected only when the
"object" discriminator equals "subscription"; an id under any other object
type yields no subscription id. -/
theorem c9_extraction_priority (data : JsonObj) :
    (∀ s, getStrField data "subscription" = some s → s ≠ "" →
      extractSubscriptionID data = s) ∧
    (∀ i, (getStrField data "subscription" = none
        ∨ getStrField data "subscription" = some "") →
      getStrField data "id" = some i →
      getStrField data "object" = some "subscription" →
      extractSubscriptionID data = i) ∧
    (∀ i o, (getStrField data "subscription" = none
        ∨ getStrField data "subscription" = some "") →
      getStrField data "id" = some i →
      getStrField data "object" = some o → o ≠ "subscription" →
      extractSubscriptionID data = "") := by
  refine ⟨fun s hs hne => ?_, fun i hsub hi ho => ?_,
    fun i o hsub hi ho hne => ?_⟩
  · simp [extractSubscriptionID, hs, hne]
  · rcases hsub with hsub | hsub <;>
      simp [extractSubscriptionID, extractSubscriptionIDFromOwnID, hsub, hi, ho]
  · rcases hsub with hsub | hsub <;>
      simp [extractSubscriptionID, extractSubscriptionIDFromOwnID, hsub, hi,
        ho, hne]

/-- Witness for c9_extraction_priority: an invoice payload with both fields
prefers the subscription reference; a subscription payload uses its own id;
a customer payload with an id yields none. -/
theorem c9_extraction_priority_witness :
    extractSubscriptionID
      [("object", Json.str "invoice"), ("id", Json.str "in_1"),
        ("subscription", Json.str "sub_9")] = "sub_9" ∧
    extractSubscriptionID
      [("object", Json.str "subscription"), ("id", Json.str "sub_9b")]
      = "sub_9b" ∧
    extractSubscriptionID
      [("object", Json.str "customer"), ("id", Json.str "cus_9")] = "" :=
  ⟨(c9_extraction_priority
      [("object", Json.str "invoice"), ("id", Json.str "in_1"),
        ("subscription", Json.str "sub_9")]).1 "sub_9" (by rfl) (by decide),
   (c9_extraction_priority
      [("object", Json.str "subscription"), ("id", Json.str "sub_9b")]).2.1
      "sub_9b" (Or.inl (by rfl)) (by rfl) (by rfl),
   (c9_extraction_priority
      [("object", Json.str "customer"), ("id", Json.str "cus_9")]).2.2
      "cus_9" "customer" (Or.inl (by rfl)) (by rfl) (by rfl) (by decide)⟩

/-- Claim C10: a subscription that does not exist and a subscription owned
by another user are indistinguishable to the caller: GetSubscriptionByID
and CancelSubscription answer both cases with the identical
ErrSubscriptionNotFound, return no subscription data, and make no provider
call. -/
theorem c10_ownership_indistinguishable (store foreignStore : List Subscription)
    (userID subscriptionID : String) (sub : Subscription)
    (r rf : Except GoError Unit)
    (hmiss : getByStripeSubscriptionID store subscriptionID = none)
    (hfound : getByStripeSubscriptionID foreignStore subscriptionID = some sub)
    (hforeign : sub.userID ≠ userID) :
    getSubscriptionByID store userID subscriptionID
      = .error errSubscriptionNotFound ∧
    getSubscriptionByID foreignStore userID subscriptionID
      = .error errSubscriptionNotFound ∧
    getSubscriptionByID foreignStore userID subscriptionID
      = getSubscriptionByID store userID subscriptionID ∧
    cancelSubscription store userID subscriptionID r
      = (.error errSubscriptionNotFound, false) ∧
    cancelSubscription foreignStore userID subscriptionID rf
      = (.error errSubscriptionNotFound, false) := by
  have hget1 : getSubscriptionByID store userID subscriptionID
      = .error errSubscriptionNotFound := by
    simp [getSubscriptionByID, hmiss]
  have hget2 : getSubscriptionByID foreignStore userID subscriptionID
      = .error errSubscriptionNotFound := by
    simp [getSubscriptionByID, hfound, hforeign]
  refine ⟨hget1, hget2, by rw [hget1, hget2], ?_, ?_⟩
  · simp [cancelSubscription, hmiss]
  · simp [cancelSubscription, hfound, hforeign]

/-- Witness for c10_ownership_indistinguishable. -/
theorem c10_ownership_indistinguishable_witness :
    getSubscriptionByID [] "user_a" "sub_10" = .error errSubscriptionNotFound ∧
    getSubscriptionByID
      [⟨"sub_10", "user_b", "plan_10", "active", "cus_10", 0, 0, none, none⟩]
      "user_a" "sub_10" = .error errSubscriptionNotFound ∧
    getSubscriptionByID
      [⟨"sub_10", "user_b", "plan_10", "active", "cus_10", 0, 0, none, none⟩]
      "user_a" "sub_10" = getSubscriptionByID [] "user_a" "sub_10" ∧
    cancelSubscription [] "user_a" "sub_10" (.ok ())
      = (.error errSubscriptionNotFound, false) ∧
    cancelSubscription
      [⟨"sub_10", "user_b", "plan_10", "active", "cus_10", 0, 0, none, none⟩]
      "user_a" "sub_10" (.ok ())
      = (.error errSubscriptionNotFound, false) :=
  c10_ownership_indistinguishable []
    [⟨"sub_10", "user_b", "plan_10", "active", "cus_10", 0, 0, none, none⟩]
    "user_a" "sub_10"
    ⟨"sub_10", "user_b", "plan_10", "active", "cus_10", 0, 0, none, none⟩
    (.ok ()) (.ok ()) (by rfl) (by rfl) (by decide)

end Payment
